import Mathlib

/-!
Shallow embedding of the orchestration server in `src/server.ts` of
Bandwidth-Samples/webrtc-hello-world-ts.

The server keeps two pieces of mutable state: `sessionId` (a possibly
unset cached WebRTC session identifier) and `calls` (a `Map` from call
identifiers to `ParticipantInfo`).  Each HTTP handler runs a sequence of
vendor API calls; we model the vendor as a deterministic oracle `Env`
indexed by a running counter of vendor requests, so that two successive
identical requests may receive different responses.  A handler run
produces an `Out`: a result (`Except Unit` models an uncaught thrown
exception / rejected promise), the advanced counter, the final server
state, and a trace of emitted events (vendor requests and HTTP responses
sent, in program order).  State mutations made before a throw persist,
exactly as for the JavaScript module-level globals.
-/

namespace HelloWorld

/-- The `ParticipantInfo` interface of `server.ts`: vendor participant id
and its join token. -/
structure ParticipantInfo where
  id : String
  token : String
deriving DecidableEq, Repr

/-- The `calls` map (call id → `ParticipantInfo`), as an association list
with JavaScript `Map` semantics. -/
abbrev CallRegistry := List (String × ParticipantInfo)

/-- JavaScript `Map.set`: overwrite the existing entry in place, else
append. -/
def regSet (l : CallRegistry) (k : String) (v : ParticipantInfo) : CallRegistry :=
  match l with
  | [] => [(k, v)]
  | (k', v') :: rest => if k' = k then (k, v) :: rest else (k', v') :: regSet rest k v

/-- JavaScript `Map.get`. -/
def regGet (l : CallRegistry) (k : String) : Option ParticipantInfo :=
  match l with
  | [] => none
  | (k', v') :: rest => if k' = k then some v' else regGet rest k

/-- JavaScript `Map.delete` (the first occurrence; keys are unique in any
reachable registry). -/
def regDelete (l : CallRegistry) (k : String) : CallRegistry :=
  match l with
  | [] => []
  | (k', v') :: rest => if k' = k then rest else (k', v') :: regDelete rest k

/-- The module-level mutable state of `server.ts`: `let sessionId: string`
(unset at startup) and `let calls: Map<string, ParticipantInfo>`. -/
structure St where
  sessionId : Option String
  calls : CallRegistry
deriving DecidableEq, Repr

/-- Well-formedness of a reachable state: registry keys are unique (a
JavaScript `Map` cannot hold duplicate keys). -/
def StOk (st : St) : Prop := (st.calls.map Prod.fst).Nodup

/-- Configuration drawn from environment variables.  `outboundPhoneNumber`
(`USER_NUMBER`) may be unset, which the code tests with JavaScript
truthiness. -/
structure Config where
  voiceApplicationPhoneNumber : String
  outboundPhoneNumber : Option String
deriving DecidableEq, Repr

/-- JavaScript truthiness of a possibly-unset string environment variable:
`undefined` and the empty string are falsy. -/
def strTruthy : Option String → Bool
  | none => false
  | some s => !(s == "")

/-- A request issued to the vendor platform (WebRTC or Voice API). -/
inductive VReq
  | createParticipant (tag : String)
  | getSession (sid : String)
  | createSession
  | addParticipantToSession (sid : String) (pid : String)
  | createCall (fromNum : String) (toNum : Option String)
  | deleteParticipant (pid : String)
deriving DecidableEq, Repr

/-- Call-control markup (BXML) documents the server can send back to the
Voice API. -/
inductive Bxml
  | transferBxml (token : String) (callId : String)
  | speakSentenceThenTransfer (token : String) (callId : String)
deriving DecidableEq, Repr

/-- An HTTP response sent (or attempted) by a handler. -/
inductive HResp
  | status (code : Nat)
  | json (token : String) (vappNum : String) (outNum : Option String)
  | xml (b : Bxml)
deriving DecidableEq, Repr

/-- One observable event of a handler run, in program order. -/
inductive Event
  | vreq (r : VReq)
  | resp (r : HResp)
deriving DecidableEq, Repr

/-- The vendor oracle: the response each vendor API call receives, indexed
by the running count of vendor requests issued so far.  `Except.error`
models an HTTP error / rejected promise. -/
structure Env where
  createParticipantResp : Nat → Except Unit (Option String × Option String)
  getSessionResp : Nat → String → Except Unit (Option String)
  createSessionResp : Nat → Except Unit (Option String)
  addParticipantResp : Nat → String → String → Except Unit Unit
  createCallResp : Nat → Except Unit String
  deleteParticipantResp : Nat → Except Unit Unit

/-- Result of running a handler or helper: the returned value or a thrown
exception, the advanced vendor-request counter, the final server state,
and the trace of events emitted (state changes made before a throw
persist). -/
structure Out (α : Type) where
  result : Except Unit α
  counter : Nat
  state : St
  trace : List Event
deriving Repr

/-- A well-behaved vendor: `getSession(accountId, s)`, when it succeeds
with an id, returns the session `s` that was queried. -/
def EnvOk (env : Env) : Prop :=
  ∀ n s i, env.getSessionResp n s = Except.ok (some i) → i = s

/-- The `createSession` tail of `getSessionId` (lines 195-205): create a
new session, fail if the response carries no id, otherwise cache and
return the new id.  `t` is the trace accumulated so far by the caller. -/
def createNewSession (env : Env) (n : Nat) (st : St) (t : List Event) : Out String :=
  match env.createSessionResp n with
  | Except.error _ => ⟨Except.error (), n + 1, st, t ++ [Event.vreq VReq.createSession]⟩
  | Except.ok none => ⟨Except.error (), n + 1, st, t ++ [Event.vreq VReq.createSession]⟩
  | Except.ok (some nid) =>
      ⟨Except.ok nid, n + 1, { st with sessionId := some nid },
        t ++ [Event.vreq VReq.createSession]⟩

/-- `getSessionId` (lines 179-206): if a session id is cached, check it
with the vendor inside a try/catch — any error, or a result without an
id, falls through to creating a new session; on success reuse the
returned id (the cache is not written on this path).  Otherwise create a
new session and cache its id. -/
def getSessionId (env : Env) (n : Nat) (st : St) : Out String :=
  match st.sessionId with
  | some sid =>
      match env.getSessionResp n sid with
      | Except.ok (some i) => ⟨Except.ok i, n + 1, st, [Event.vreq (VReq.getSession sid)]⟩
      | _ => createNewSession env (n + 1) st [Event.vreq (VReq.getSession sid)]
  | none => createNewSession env n st []

/-- `createParticipant` (lines 211-246): create a participant (throwing if
the response lacks a token or a participant id), resolve the session id,
add the participant to that session, and return `{id, token}`. -/
def createParticipant (env : Env) (n : Nat) (st : St) (tag : String) :
    Out ParticipantInfo :=
  let t0 : List Event := [Event.vreq (VReq.createParticipant tag)]
  match env.createParticipantResp n with
  | Except.error _ => ⟨Except.error (), n + 1, st, t0⟩
  | Except.ok (pid?, tok?) =>
      match tok? with
      | none => ⟨Except.error (), n + 1, st, t0⟩
      | some token =>
          match pid? with
          | none => ⟨Except.error (), n + 1, st, t0⟩
          | some participantId =>
              let o := getSessionId env (n + 1) st
              match o.result with
              | Except.error _ => ⟨Except.error (), o.counter, o.state, t0 ++ o.trace⟩
              | Except.ok sid =>
                  let t1 := t0 ++ o.trace ++
                    [Event.vreq (VReq.addParticipantToSession sid participantId)]
                  match env.addParticipantResp o.counter sid participantId with
                  | Except.error _ => ⟨Except.error (), o.counter + 1, o.state, t1⟩
                  | Except.ok _ =>
                      ⟨Except.ok ⟨participantId, token⟩, o.counter + 1, o.state, t1⟩

/-- `callPhone` (lines 260-277): ask the Voice API to originate a call
from the application number to `phoneNumber`; on success record the call
id in the registry; any error is caught and only logged. -/
def callPhone (cfg : Config) (env : Env) (n : Nat) (st : St)
    (phoneNumber : Option String) (participant : ParticipantInfo) : Out Unit :=
  let t0 : List Event :=
    [Event.vreq (VReq.createCall cfg.voiceApplicationPhoneNumber phoneNumber)]
  match env.createCallResp n with
  | Except.ok callId =>
      ⟨Except.ok (), n + 1, { st with calls := regSet st.calls callId participant }, t0⟩
  | Except.error _ => ⟨Except.ok (), n + 1, st, t0⟩

/-- `GET /connectionInfo` (lines 74-81): create a participant and answer
with `{token, voiceApplicationPhoneNumber, outboundPhoneNumber}`. -/
def connectionInfo (cfg : Config) (env : Env) (n : Nat) (st : St) : Out Unit :=
  let o := createParticipant env n st "hello-world-ts-browser"
  match o.result with
  | Except.error _ => ⟨Except.error (), o.counter, o.state, o.trace⟩
  | Except.ok p =>
      ⟨Except.ok (), o.counter, o.state,
        o.trace ++
          [Event.resp (HResp.json p.token cfg.voiceApplicationPhoneNumber
            cfg.outboundPhoneNumber)]⟩

/-- `GET /callPhone` (lines 86-94): if no outbound number is configured a
400 is sent, but — there being no `return` — execution continues: a
participant is created, `callPhone` is invoked with the (unset) number,
and a final 204 send is attempted (Express delivers only the first
response actually sent; later sends raise in the background). -/
def callPhoneHandler (cfg : Config) (env : Env) (n : Nat) (st : St) : Out Unit :=
  let t0 : List Event :=
    if strTruthy cfg.outboundPhoneNumber then [] else [Event.resp (HResp.status 400)]
  let o := createParticipant env n st "hello-world-ts-phone"
  match o.result with
  | Except.error _ => ⟨Except.error (), o.counter, o.state, t0 ++ o.trace⟩
  | Except.ok participant =>
      let o2 := callPhone cfg env o.counter o.state cfg.outboundPhoneNumber participant
      ⟨Except.ok (), o2.counter, o2.state,
        t0 ++ o.trace ++ o2.trace ++ [Event.resp (HResp.status 204)]⟩

/-- `POST /incomingCall` (lines 99-111): create a participant, register it
under the incoming call id, and answer with transfer BXML carrying the
participant's token. -/
def incomingCall (env : Env) (n : Nat) (st : St) (callId : String) : Out Unit :=
  let o := createParticipant env n st "hello-world-ts-phone"
  match o.result with
  | Except.error _ => ⟨Except.error (), o.counter, o.state, o.trace⟩
  | Except.ok participant =>
      ⟨Except.ok (), o.counter,
        { o.state with calls := regSet o.state.calls callId participant },
        o.trace ++ [Event.resp (HResp.xml (Bxml.transferBxml participant.token callId))]⟩

/-- `POST /callAnswered` (lines 116-137): look the call id up in the
registry; if absent answer 400 and stop; if present answer with the
speak-then-transfer BXML carrying the stored participant's token. -/
def callAnswered (env : Env) (n : Nat) (st : St) (callId : String) : Out Unit :=
  match regGet st.calls callId with
  | none => ⟨Except.ok (), n, st, [Event.resp (HResp.status 400)]⟩
  | some participant =>
      ⟨Except.ok (), n, st,
        [Event.resp (HResp.xml
          (Bxml.speakSentenceThenTransfer participant.token callId))]⟩

/-- `POST /callStatus` (lines 142-158): acknowledge with 200 first; then,
only for a `disconnect` event whose call id is registered, fire (without
awaiting) a participant deletion and remove the registry entry.  Every
other case is only logged. -/
def callStatus (env : Env) (n : Nat) (st : St) (eventType : String)
    (callId : String) : Out Unit :=
  let t0 : List Event := [Event.resp (HResp.status 200)]
  if eventType = "disconnect" then
    match regGet st.calls callId with
    | some participant =>
        ⟨Except.ok (), n + 1, { st with calls := regDelete st.calls callId },
          t0 ++ [Event.vreq (VReq.deleteParticipant participant.id)]⟩
    | none => ⟨Except.ok (), n, st, t0⟩
  else ⟨Except.ok (), n, st, t0⟩

/-- Events that are vendor participant-deletion requests. -/
def isDeleteReq : Event → Bool
  | Event.vreq (VReq.deleteParticipant _) => true
  | _ => false

/-- Events that are vendor session-creation requests. -/
def isCreateSessionReq : Event → Bool
  | Event.vreq VReq.createSession => true
  | _ => false

/-- Number of participant-deletion requests in a trace. -/
def countDeletes (t : List Event) : Nat := (t.filter isDeleteReq).length

/-- Number of session-creation requests in a trace. -/
def countCreateSessions (t : List Event) : Nat := (t.filter isCreateSessionReq).length

/-- The HTTP responses sent in a trace, in order. -/
def responses (t : List Event) : List HResp :=
  t.filterMap fun e => match e with
    | Event.resp r => some r
    | _ => none

/-- The vendor requests issued in a trace, in order. -/
def vrequests (t : List Event) : List VReq :=
  t.filterMap fun e => match e with
    | Event.vreq r => some r
    | _ => none

/-- The response the HTTP client observes: the first response sent. -/
def clientResponse (t : List Event) : Option HResp := (responses t).head?

/-- A vendor oracle on which every request succeeds, with distinct ids per
request. -/
def env0 : Env where
  createParticipantResp := fun n =>
    Except.ok (some ("p" ++ toString n), some ("t" ++ toString n))
  getSessionResp := fun _ s => Except.ok (some s)
  createSessionResp := fun n => Except.ok (some ("s" ++ toString n))
  addParticipantResp := fun _ _ _ => Except.ok ()
  createCallResp := fun n => Except.ok ("c" ++ toString n)
  deleteParticipantResp := fun _ => Except.ok ()

/-- Like `env0` but every call origination fails. -/
def envCallFail : Env :=
  { env0 with createCallResp := fun _ => Except.error () }

/-- Like `env0` but every session existence check fails. -/
def envSessionCheckFail : Env :=
  { env0 with getSessionResp := fun _ _ => Except.error () }

/-- The startup state: no cached session, empty registry. -/
def st0 : St := ⟨none, []⟩

/-- A configuration with no outbound phone number set. -/
def cfgNoOutbound : Config := ⟨"+15551112222", none⟩

/-- A configuration with an outbound phone number set. -/
def cfgOutbound : Config := ⟨"+15551112222", some "+15553334444"⟩

end HelloWorld

namespace HelloWorld

/-! ### Registry lemmas -/

theorem regGet_regSet_self (l : CallRegistry) (k : String) (v : ParticipantInfo) :
    regGet (regSet l k v) k = some v := by
  induction l with
  | nil => simp [regSet, regGet]
  | cons hd tl ih =>
    obtain ⟨k', v'⟩ := hd
    by_cases h : k' = k <;> simp [regSet, regGet, h, ih]

theorem regDelete_regSet_self (l : CallRegistry) (k : String) (v : ParticipantInfo) :
    regDelete (regSet l k v) k = regDelete l k := by
  induction l with
  | nil => simp [regSet, regDelete]
  | cons hd tl ih =>
    obtain ⟨k', v'⟩ := hd
    by_cases h : k' = k <;> simp [regSet, regDelete, h, ih]

theorem regGet_eq_none_of_not_mem (l : CallRegistry) (k : String)
    (h : k ∉ l.map Prod.fst) : regGet l k = none := by
  induction l with
  | nil => simp [regGet]
  | cons hd tl ih =>
    obtain ⟨k', v'⟩ := hd
    simp only [List.map_cons, List.mem_cons, not_or] at h
    have hne : ¬ k' = k := fun he => h.1 he.symm
    simp only [regGet, if_neg hne]
    exact ih h.2

theorem regGet_regDelete_self (l : CallRegistry) (k : String)
    (h : (l.map Prod.fst).Nodup) : regGet (regDelete l k) k = none := by
  induction l with
  | nil => simp [regDelete, regGet]
  | cons hd tl ih =>
    obtain ⟨k', v'⟩ := hd
    simp only [List.map_cons, List.nodup_cons] at h
    by_cases hk : k' = k
    · subst hk
      simp only [regDelete, if_pos rfl]
      exact regGet_eq_none_of_not_mem tl k' h.1
    · simp only [regDelete, if_neg hk, regGet, if_neg hk]
      exact ih h.2

/-! ### Trace helper lemmas -/

theorem responses_append (a b : List Event) :
    responses (a ++ b) = responses a ++ responses b := by
  simp [responses, List.filterMap_append]

theorem countDeletes_append (a b : List Event) :
    countDeletes (a ++ b) = countDeletes a + countDeletes b := by
  simp [countDeletes, List.filter_append]

/-! ### Structural lemmas about session resolution and provisioning -/

theorem createNewSession_spec (env : Env) (n : Nat) (st : St) (t : List Event) :
    (createNewSession env n st t).state.calls = st.calls ∧
    (createNewSession env n st t).trace = t ++ [Event.vreq VReq.createSession] ∧
    ∀ sid, (createNewSession env n st t).result = Except.ok sid →
      (createNewSession env n st t).state.sessionId = some sid := by
  cases hcs : env.createSessionResp n with
  | error e => simp [createNewSession, hcs]
  | ok oid =>
    cases oid with
    | none => simp [createNewSession, hcs]
    | some nid =>
      refine ⟨by simp [createNewSession, hcs], by simp [createNewSession, hcs], ?_⟩
      intro sid hs
      simp only [createNewSession, hcs] at hs ⊢
      simpa using hs

theorem getSessionId_spec (env : Env) (n : Nat) (st : St) :
    (getSessionId env n st).state.calls = st.calls ∧
    responses (getSessionId env n st).trace = [] ∧
    countDeletes (getSessionId env n st).trace = 0 ∧
    ∀ sid, (getSessionId env n st).result = Except.ok sid → EnvOk env →
      (getSessionId env n st).state.sessionId = some sid := by
  cases hc : st.sessionId with
  | none =>
    have h := createNewSession_spec env n st []
    simp only [getSessionId, hc]
    refine ⟨h.1, ?_, ?_, fun sid hs _ => h.2.2 sid hs⟩
    · rw [h.2.1]; simp [responses]
    · rw [h.2.1]; simp [countDeletes, isDeleteReq]
  | some cached =>
    cases hresp : env.getSessionResp n cached with
    | error e =>
      have h := createNewSession_spec env (n + 1) st [Event.vreq (VReq.getSession cached)]
      simp only [getSessionId, hc, hresp]
      refine ⟨h.1, ?_, ?_, fun sid hs _ => h.2.2 sid hs⟩
      · rw [h.2.1]; simp [responses]
      · rw [h.2.1]; simp [countDeletes, isDeleteReq]
    | ok oi =>
      cases oi with
      | none =>
        have h := createNewSession_spec env (n + 1) st [Event.vreq (VReq.getSession cached)]
        simp only [getSessionId, hc, hresp]
        refine ⟨h.1, ?_, ?_, fun sid hs _ => h.2.2 sid hs⟩
        · rw [h.2.1]; simp [responses]
        · rw [h.2.1]; simp [countDeletes, isDeleteReq]
      | some i =>
        simp only [getSessionId, hc, hresp]
        refine ⟨by trivial, by simp [responses], by simp [countDeletes, isDeleteReq], ?_⟩
        intro sid hs henv
        have hi : i = sid := by simpa using hs
        have h2 : i = cached := henv n cached i hresp
        rw [← hi, h2]

theorem createParticipant_spec (env : Env) (n : Nat) (st : St) (tag : String) :
    (createParticipant env n st tag).state.calls = st.calls ∧
    responses (createParticipant env n st tag).trace = [] ∧
    countDeletes (createParticipant env n st tag).trace = 0 ∧
    Event.vreq (VReq.createParticipant tag) ∈ (createParticipant env n st tag).trace ∧
    ∀ p, (createParticipant env n st tag).result = Except.ok p → EnvOk env →
      ∃ sid, (createParticipant env n st tag).state.sessionId = some sid ∧
        Event.vreq (VReq.addParticipantToSession sid p.id) ∈
          (createParticipant env n st tag).trace := by
  cases hcp : env.createParticipantResp n with
  | error e => simp [createParticipant, hcp, responses, countDeletes, isDeleteReq]
  | ok pr =>
    obtain ⟨pid?, tok?⟩ := pr
    cases tok? with
    | none => simp [createParticipant, hcp, responses, countDeletes, isDeleteReq]
    | some token =>
      cases pid? with
      | none => simp [createParticipant, hcp, responses, countDeletes, isDeleteReq]
      | some participantId =>
        have hg := getSessionId_spec env (n + 1) st
        cases hgs : (getSessionId env (n + 1) st).result with
        | error e =>
          simp only [createParticipant, hcp, hgs]
          refine ⟨hg.1, ?_, ?_, by simp, by simp⟩
          · rw [show [Event.vreq (VReq.createParticipant tag)] ++
                (getSessionId env (n + 1) st).trace =
                [Event.vreq (VReq.createParticipant tag)] ++
                (getSessionId env (n + 1) st).trace from rfl]
            rw [responses_append, hg.2.1]
            simp [responses]
          · rw [countDeletes_append, hg.2.2.1]
            simp [countDeletes, isDeleteReq]
        | ok sid =>
          cases hap : env.addParticipantResp (getSessionId env (n + 1) st).counter
              sid participantId with
          | error e =>
            simp only [createParticipant, hcp, hgs, hap]
            refine ⟨hg.1, ?_, ?_, by simp, by simp⟩
            · rw [responses_append, responses_append, hg.2.1]
              simp [responses]
            · rw [countDeletes_append, countDeletes_append, hg.2.2.1]
              simp [countDeletes, isDeleteReq]
          | ok u =>
            simp only [createParticipant, hcp, hgs, hap]
            refine ⟨hg.1, ?_, ?_, by simp, ?_⟩
            · rw [responses_append, responses_append, hg.2.1]
              simp [responses]
            · rw [countDeletes_append, countDeletes_append, hg.2.2.1]
              simp [countDeletes, isDeleteReq]
            · intro p hp henv
              have hpe : (⟨participantId, token⟩ : ParticipantInfo) = p := by
                simpa using hp
              refine ⟨sid, hg.2.2.2 sid hgs henv, ?_⟩
              rw [← hpe]
              simp

theorem resp_mem_iff (t : List Event) (r : HResp) :
    Event.resp r ∈ t ↔ r ∈ responses t := by
  induction t with
  | nil => simp [responses]
  | cons e tl ih =>
    cases e with
    | vreq q => simp [responses, ih]
    | resp r2 => simp [responses, List.mem_cons, ih]

/-! ### Claim theorems -/

/-- C6: a `POST /callAnswered` webhook whose call identifier has no entry
in the `calls` registry is answered with a bare 400: no transfer markup is
sent, no vendor request is issued, and the server state is unchanged. -/
theorem callAnswered_unknown_call (env : Env) (n : Nat) (st : St) (c : String)
    (h : regGet st.calls c = none) :
    (callAnswered env n st c).trace = [Event.resp (HResp.status 400)] ∧
    (callAnswered env n st c).state = st ∧
    (callAnswered env n st c).counter = n ∧
    vrequests (callAnswered env n st c).trace = [] ∧
    ∀ b, Event.resp (HResp.xml b) ∉ (callAnswered env n st c).trace := by
  refine ⟨by simp [callAnswered, h], by simp [callAnswered, h],
    by simp [callAnswered, h], by simp [callAnswered, h, vrequests], ?_⟩
  intro b
  simp [callAnswered, h]

theorem callAnswered_unknown_call_witness :
    regGet st0.calls "c9" = none ∧
    (callAnswered env0 0 st0 "c9").trace = [Event.resp (HResp.status 400)] ∧
    (callAnswered env0 0 st0 "c9").state = st0 ∧
    (callAnswered env0 0 st0 "c9").counter = 0 ∧
    vrequests (callAnswered env0 0 st0 "c9").trace = [] ∧
    ∀ b, Event.resp (HResp.xml b) ∉ (callAnswered env0 0 st0 "c9").trace :=
  ⟨by decide, callAnswered_unknown_call env0 0 st0 "c9" (by decide)⟩

/-- C8: `POST /callStatus` sends 200 as its very first action, and for any
event type other than `disconnect` it changes neither the registry nor the
cached session, issues no vendor request, and sends nothing beyond the
200. -/
theorem callStatus_ack_then_ignore (env : Env) (n : Nat) (st : St)
    (et c : String) :
    (callStatus env n st et c).trace.head? = some (Event.resp (HResp.status 200)) ∧
    (et ≠ "disconnect" →
      (callStatus env n st et c).state = st ∧
      (callStatus env n st et c).counter = n ∧
      vrequests (callStatus env n st et c).trace = [] ∧
      responses (callStatus env n st et c).trace = [HResp.status 200]) := by
  constructor
  · by_cases he : et = "disconnect"
    · simp only [callStatus, if_pos he]
      cases hg : regGet st.calls c <;> simp
    · simp [callStatus, he]
  · intro he
    simp [callStatus, he, vrequests, responses]

theorem callStatus_ack_then_ignore_witness :
    (callStatus env0 0 st0 "ring" "c1").trace.head? =
      some (Event.resp (HResp.status 200)) ∧
    (callStatus env0 0 st0 "ring" "c1").state = st0 ∧
    (callStatus env0 0 st0 "ring" "c1").counter = 0 ∧
    vrequests (callStatus env0 0 st0 "ring" "c1").trace = [] ∧
    responses (callStatus env0 0 st0 "ring" "c1").trace = [HResp.status 200] := by
  have h := callStatus_ack_then_ignore env0 0 st0 "ring" "c1"
  have h2 := h.2 (by decide)
  exact ⟨h.1, h2.1, h2.2.1, h2.2.2.1, h2.2.2.2⟩

/-- C9: a `disconnect` status event whose call identifier is not in the
registry is acknowledged with 200 and nothing else happens: no
participant-deletion request, no state change. -/
theorem callStatus_disconnect_unknown (env : Env) (n : Nat) (st : St)
    (c : String) (h : regGet st.calls c = none) :
    responses (callStatus env n st "disconnect" c).trace = [HResp.status 200] ∧
    (callStatus env n st "disconnect" c).state = st ∧
    (callStatus env n st "disconnect" c).counter = n ∧
    vrequests (callStatus env n st "disconnect" c).trace = [] ∧
    countDeletes (callStatus env n st "disconnect" c).trace = 0 := by
  refine ⟨?_, ?_, ?_, ?_, ?_⟩ <;>
    simp [callStatus, h, responses, vrequests, countDeletes, isDeleteReq]

theorem callStatus_disconnect_unknown_witness :
    regGet st0.calls "c7" = none ∧
    responses (callStatus env0 0 st0 "disconnect" "c7").trace = [HResp.status 200] ∧
    (callStatus env0 0 st0 "disconnect" "c7").state = st0 ∧
    (callStatus env0 0 st0 "disconnect" "c7").counter = 0 ∧
    vrequests (callStatus env0 0 st0 "disconnect" "c7").trace = [] ∧
    countDeletes (callStatus env0 0 st0 "disconnect" "c7").trace = 0 :=
  ⟨by decide, callStatus_disconnect_unknown env0 0 st0 "c7" (by decide)⟩

/-- C2: an inbound-call webhook for `c` that completes (inserting a
registry entry) followed by a disconnect-status webhook for `c` leaves the
registry without an entry for `c`, issues exactly one participant-deletion
request — for the participant stored under `c` — and answers the status
webhook with 200. -/
theorem inbound_then_disconnect (env : Env) (n : Nat) (st : St) (c : String)
    (hok : StOk st)
    (h1 : (incomingCall env n st c).result = Except.ok ()) :
    regGet (callStatus env (incomingCall env n st c).counter
      (incomingCall env n st c).state "disconnect" c).state.calls c = none ∧
    (∃ p, regGet (incomingCall env n st c).state.calls c = some p ∧
      Event.vreq (VReq.deleteParticipant p.id) ∈
        (callStatus env (incomingCall env n st c).counter
          (incomingCall env n st c).state "disconnect" c).trace) ∧
    countDeletes ((incomingCall env n st c).trace ++
      (callStatus env (incomingCall env n st c).counter
        (incomingCall env n st c).state "disconnect" c).trace) = 1 ∧
    clientResponse (callStatus env (incomingCall env n st c).counter
      (incomingCall env n st c).state "disconnect" c).trace =
      some (HResp.status 200) := by
  have hs := createParticipant_spec env n st "hello-world-ts-phone"
  cases hres : (createParticipant env n st "hello-world-ts-phone").result with
  | error e =>
    simp only [incomingCall, hres] at h1
    simp at h1
  | ok p =>
    have hcalls : (incomingCall env n st c).state.calls = regSet st.calls c p := by
      simp only [incomingCall, hres]
      rw [hs.1]
    have htr : (incomingCall env n st c).trace =
        (createParticipant env n st "hello-world-ts-phone").trace ++
          [Event.resp (HResp.xml (Bxml.transferBxml p.token c))] := by
      simp only [incomingCall, hres]
    have hget : regGet (incomingCall env n st c).state.calls c = some p := by
      rw [hcalls]
      exact regGet_regSet_self st.calls c p
    have h2tr : (callStatus env (incomingCall env n st c).counter
        (incomingCall env n st c).state "disconnect" c).trace =
        [Event.resp (HResp.status 200), Event.vreq (VReq.deleteParticipant p.id)] := by
      simp [callStatus, hget]
    have h2calls : (callStatus env (incomingCall env n st c).counter
        (incomingCall env n st c).state "disconnect" c).state.calls =
        regDelete ((incomingCall env n st c).state.calls) c := by
      simp [callStatus, hget]
    refine ⟨?_, ⟨p, hget, ?_⟩, ?_, ?_⟩
    · rw [h2calls, hcalls, regDelete_regSet_self]
      exact regGet_regDelete_self st.calls c hok
    · rw [h2tr]
      simp
    · rw [countDeletes_append, htr, h2tr, countDeletes_append, hs.2.2.1]
      simp [countDeletes, isDeleteReq]
    · rw [h2tr]
      simp [clientResponse, responses]

theorem inbound_then_disconnect_witness :
    StOk st0 ∧
    (incomingCall env0 0 st0 "c1").result = Except.ok () ∧
    regGet (callStatus env0 (incomingCall env0 0 st0 "c1").counter
      (incomingCall env0 0 st0 "c1").state "disconnect" "c1").state.calls "c1" = none ∧
    (∃ p, regGet (incomingCall env0 0 st0 "c1").state.calls "c1" = some p ∧
      Event.vreq (VReq.deleteParticipant p.id) ∈
        (callStatus env0 (incomingCall env0 0 st0 "c1").counter
          (incomingCall env0 0 st0 "c1").state "disconnect" "c1").trace) ∧
    countDeletes ((incomingCall env0 0 st0 "c1").trace ++
      (callStatus env0 (incomingCall env0 0 st0 "c1").counter
        (incomingCall env0 0 st0 "c1").state "disconnect" "c1").trace) = 1 ∧
    clientResponse (callStatus env0 (incomingCall env0 0 st0 "c1").counter
      (incomingCall env0 0 st0 "c1").state "disconnect" "c1").trace =
      some (HResp.status 200) := by
  have h := inbound_then_disconnect env0 0 st0 "c1" (by simp [StOk, st0]) (by rfl)
  exact ⟨by simp [StOk, st0], by rfl, h.1, h.2.1, h.2.2.1, h.2.2.2⟩

theorem regGet_regSet (l : CallRegistry) (k k' : String) (v : ParticipantInfo) :
    regGet (regSet l k v) k' = if k = k' then some v else regGet l k' := by
  induction l with
  | nil => by_cases h : k = k' <;> simp [regSet, regGet, h]
  | cons hd tl ih =>
    obtain ⟨a, b⟩ := hd
    by_cases ha : a = k
    · subst ha
      by_cases h : a = k' <;> simp [regSet, regGet, h]
    · by_cases h2 : a = k'
      · subst h2
        have hk : ¬ a = k := ha
        have hk2 : ¬ k = a := fun he => ha he.symm
        simp [regSet, regGet, hk, hk2]
      · simp [regSet, regGet, ha, h2, ih]

theorem callPhone_trace (cfg : Config) (env : Env) (m : Nat) (st' : St)
    (pn : Option String) (pt : ParticipantInfo) :
    (callPhone cfg env m st' pn pt).trace =
      [Event.vreq (VReq.createCall cfg.voiceApplicationPhoneNumber pn)] := by
  cases h : env.createCallResp m <;> simp [callPhone, h]

theorem envOk_env0 : EnvOk env0 := by
  intro n s i h
  simp [env0] at h
  exact h.symm

theorem envOk_envCallFail : EnvOk envCallFail := by
  intro n s i h
  simp [envCallFail, env0] at h
  exact h.symm

theorem envOk_envSessionCheckFail : EnvOk envSessionCheckFail := by
  intro n s i h
  simp [envSessionCheckFail] at h

/-- C3: invariant of the two registry-inserting operations.  Any entry the
inbound-call handler inserts, and any entry the outbound-call trigger
inserts (every final entry not already present initially), holds a
participant for which a vendor creation request and an
add-to-current-session request are in the handler's trace, the session
being the one cached at the moment of insertion. -/
theorem registry_entries_provisioned (cfg : Config) (env : Env) (n : Nat)
    (st : St) (c : String) (henv : EnvOk env) :
    ((incomingCall env n st c).result = Except.ok () →
      ∃ p sid, regGet (incomingCall env n st c).state.calls c = some p ∧
        (incomingCall env n st c).state.sessionId = some sid ∧
        Event.vreq (VReq.createParticipant "hello-world-ts-phone") ∈
          (incomingCall env n st c).trace ∧
        Event.vreq (VReq.addParticipantToSession sid p.id) ∈
          (incomingCall env n st c).trace) ∧
    (∀ c' p, regGet (callPhoneHandler cfg env n st).state.calls c' = some p →
      regGet st.calls c' = some p ∨
      ∃ sid, (callPhoneHandler cfg env n st).state.sessionId = some sid ∧
        Event.vreq (VReq.createParticipant "hello-world-ts-phone") ∈
          (callPhoneHandler cfg env n st).trace ∧
        Event.vreq (VReq.addParticipantToSession sid p.id) ∈
          (callPhoneHandler cfg env n st).trace) := by
  have hs := createParticipant_spec env n st "hello-world-ts-phone"
  constructor
  · intro h1
    cases hres : (createParticipant env n st "hello-world-ts-phone").result with
    | error e =>
      simp only [incomingCall, hres] at h1
      simp at h1
    | ok p =>
      obtain ⟨sid, hcs, hmem⟩ := hs.2.2.2.2 p hres henv
      refine ⟨p, sid, ?_, ?_, ?_, ?_⟩
      · simp only [incomingCall, hres]
        rw [hs.1]
        exact regGet_regSet_self st.calls c p
      · simp only [incomingCall, hres]
        exact hcs
      · simp only [incomingCall, hres]
        simp [hs.2.2.2.1]
      · simp only [incomingCall, hres]
        simp [hmem]
  · intro c' p hp
    cases hres : (createParticipant env n st "hello-world-ts-phone").result with
    | error e =>
      left
      have hcalls : (callPhoneHandler cfg env n st).state.calls = st.calls := by
        simp only [callPhoneHandler, hres]
        rw [hs.1]
      rw [hcalls] at hp
      exact hp
    | ok participant =>
      cases hcc : env.createCallResp
          (createParticipant env n st "hello-world-ts-phone").counter with
      | error e =>
        left
        have hcalls : (callPhoneHandler cfg env n st).state.calls = st.calls := by
          simp only [callPhoneHandler, hres, callPhone, hcc]
          rw [hs.1]
        rw [hcalls] at hp
        exact hp
      | ok callId =>
        have hcalls : (callPhoneHandler cfg env n st).state.calls =
            regSet st.calls callId participant := by
          simp only [callPhoneHandler, hres, callPhone, hcc]
          rw [hs.1]
        have hsess : (callPhoneHandler cfg env n st).state.sessionId =
            (createParticipant env n st "hello-world-ts-phone").state.sessionId := by
          simp only [callPhoneHandler, hres, callPhone, hcc]
        have hlift : ∀ e, e ∈ (createParticipant env n st "hello-world-ts-phone").trace →
            e ∈ (callPhoneHandler cfg env n st).trace := by
          intro e he
          simp only [callPhoneHandler, hres]
          simp [he]
        rw [hcalls, regGet_regSet] at hp
        by_cases hk : callId = c'
        · rw [if_pos hk] at hp
          obtain rfl : participant = p := by simpa using hp
          right
          obtain ⟨sid, hcs, hmem⟩ := hs.2.2.2.2 participant hres henv
          exact ⟨sid, by rw [hsess]; exact hcs, hlift _ hs.2.2.2.1, hlift _ hmem⟩
        · rw [if_neg hk] at hp
          left
          exact hp

theorem registry_entries_provisioned_witness :
    ∃ p sid, regGet (incomingCall env0 0 st0 "c1").state.calls "c1" = some p ∧
      (incomingCall env0 0 st0 "c1").state.sessionId = some sid ∧
      Event.vreq (VReq.createParticipant "hello-world-ts-phone") ∈
        (incomingCall env0 0 st0 "c1").trace ∧
      Event.vreq (VReq.addParticipantToSession sid p.id) ∈
        (incomingCall env0 0 st0 "c1").trace :=
  (registry_entries_provisioned cfgOutbound env0 0 st0 "c1" envOk_env0).1 (by rfl)

/-- C5: a `GET /connectionInfo` request on which every vendor call
succeeds answers with exactly the
`{token, voiceApplicationPhoneNumber, outboundPhoneNumber}` body, the
token being that of a participant created and added to the session cached
at the end of the request. -/
theorem connectionInfo_token_registered (cfg : Config) (env : Env) (n : Nat)
    (st : St) (henv : EnvOk env)
    (h : (connectionInfo cfg env n st).result = Except.ok ()) :
    ∃ (p : ParticipantInfo) (sid : String),
      responses (connectionInfo cfg env n st).trace =
        [HResp.json p.token cfg.voiceApplicationPhoneNumber cfg.outboundPhoneNumber] ∧
      (connectionInfo cfg env n st).state.sessionId = some sid ∧
      Event.vreq (VReq.createParticipant "hello-world-ts-browser") ∈
        (connectionInfo cfg env n st).trace ∧
      Event.vreq (VReq.addParticipantToSession sid p.id) ∈
        (connectionInfo cfg env n st).trace := by
  have hs := createParticipant_spec env n st "hello-world-ts-browser"
  cases hres : (createParticipant env n st "hello-world-ts-browser").result with
  | error e =>
    simp only [connectionInfo, hres] at h
    simp at h
  | ok p =>
    obtain ⟨sid, hcs, hmem⟩ := hs.2.2.2.2 p hres henv
    refine ⟨p, sid, ?_, ?_, ?_, ?_⟩
    · simp only [connectionInfo, hres]
      rw [responses_append, hs.2.1]
      simp [responses]
    · simp only [connectionInfo, hres]
      exact hcs
    · simp only [connectionInfo, hres]
      simp [hs.2.2.2.1]
    · simp only [connectionInfo, hres]
      simp [hmem]

theorem connectionInfo_token_registered_witness :
    ∃ (p : ParticipantInfo) (sid : String),
      responses (connectionInfo cfgOutbound env0 0 st0).trace =
        [HResp.json p.token cfgOutbound.voiceApplicationPhoneNumber
          cfgOutbound.outboundPhoneNumber] ∧
      (connectionInfo cfgOutbound env0 0 st0).state.sessionId = some sid ∧
      Event.vreq (VReq.createParticipant "hello-world-ts-browser") ∈
        (connectionInfo cfgOutbound env0 0 st0).trace ∧
      Event.vreq (VReq.addParticipantToSession sid p.id) ∈
        (connectionInfo cfgOutbound env0 0 st0).trace :=
  connectionInfo_token_registered cfgOutbound env0 0 st0 envOk_env0 (by rfl)

theorem incomingCall_result_error (env : Env) (m : Nat) (s : St) (c : String)
    (e : Unit)
    (hres : (createParticipant env m s "hello-world-ts-phone").result =
      Except.error e) :
    (incomingCall env m s c).result = Except.error () := by
  simp only [incomingCall, hres]

theorem incomingCall_ok_spec (env : Env) (m : Nat) (s : St) (c : String)
    (p : ParticipantInfo)
    (hres : (createParticipant env m s "hello-world-ts-phone").result =
      Except.ok p) :
    (incomingCall env m s c).result = Except.ok () ∧
    (incomingCall env m s c).state.calls = regSet s.calls c p ∧
    (incomingCall env m s c).state.sessionId =
      (createParticipant env m s "hello-world-ts-phone").state.sessionId ∧
    (incomingCall env m s c).trace =
      (createParticipant env m s "hello-world-ts-phone").trace ++
        [Event.resp (HResp.xml (Bxml.transferBxml p.token c))] := by
  refine ⟨?_, ?_, ?_, ?_⟩
  · simp only [incomingCall, hres]
  · simp only [incomingCall, hres]
    rw [(createParticipant_spec env m s "hello-world-ts-phone").1]
  · simp only [incomingCall, hres]
  · simp only [incomingCall, hres]

/-- C7: two completed inbound-call webhooks for the same call identifier
`c` leave the registry mapping `c` to the second webhook's participant
(an entry for `c` also existed after the first webhook and was silently
overwritten): no participant deletion is issued and no error status is
sent by either webhook. -/
theorem duplicate_inbound_overwrites (env : Env) (n : Nat) (st : St)
    (c : String)
    (h1 : (incomingCall env n st c).result = Except.ok ())
    (h2 : (incomingCall env (incomingCall env n st c).counter
      (incomingCall env n st c).state c).result = Except.ok ()) :
    (∃ p1, regGet (incomingCall env n st c).state.calls c = some p1) ∧
    (∃ p2, regGet (incomingCall env (incomingCall env n st c).counter
        (incomingCall env n st c).state c).state.calls c = some p2 ∧
      Event.resp (HResp.xml (Bxml.transferBxml p2.token c)) ∈
        (incomingCall env (incomingCall env n st c).counter
          (incomingCall env n st c).state c).trace) ∧
    countDeletes ((incomingCall env n st c).trace ++
      (incomingCall env (incomingCall env n st c).counter
        (incomingCall env n st c).state c).trace) = 0 ∧
    ∀ k, Event.resp (HResp.status k) ∉ (incomingCall env n st c).trace ++
      (incomingCall env (incomingCall env n st c).counter
        (incomingCall env n st c).state c).trace := by
  cases hres1 : (createParticipant env n st "hello-world-ts-phone").result with
  | error e =>
    rw [incomingCall_result_error env n st c e hres1] at h1
    simp at h1
  | ok p1 =>
    have hs1 := createParticipant_spec env n st "hello-world-ts-phone"
    have h1spec := incomingCall_ok_spec env n st c p1 hres1
    cases hres2 : (createParticipant env (incomingCall env n st c).counter
        (incomingCall env n st c).state "hello-world-ts-phone").result with
    | error e =>
      rw [incomingCall_result_error env (incomingCall env n st c).counter
        (incomingCall env n st c).state c e hres2] at h2
      simp at h2
    | ok p2 =>
      have hs2 := createParticipant_spec env (incomingCall env n st c).counter
        (incomingCall env n st c).state "hello-world-ts-phone"
      have h2spec := incomingCall_ok_spec env (incomingCall env n st c).counter
        (incomingCall env n st c).state c p2 hres2
      refine ⟨⟨p1, ?_⟩, ⟨p2, ?_, ?_⟩, ?_, ?_⟩
      · rw [h1spec.2.1]
        exact regGet_regSet_self st.calls c p1
      · rw [h2spec.2.1]
        exact regGet_regSet_self (incomingCall env n st c).state.calls c p2
      · rw [h2spec.2.2.2]
        simp
      · rw [countDeletes_append, h1spec.2.2.2, h2spec.2.2.2, countDeletes_append,
          countDeletes_append, hs1.2.2.1, hs2.2.2.1]
        simp [countDeletes, isDeleteReq]
      · intro k hk
        rw [List.mem_append] at hk
        rcases hk with hk | hk
        · rw [resp_mem_iff, h1spec.2.2.2, responses_append, hs1.2.1] at hk
          simp [responses] at hk
        · rw [resp_mem_iff, h2spec.2.2.2, responses_append, hs2.2.1] at hk
          simp [responses] at hk

theorem duplicate_inbound_overwrites_witness :
    (∃ p1, regGet (incomingCall env0 0 st0 "c1").state.calls "c1" = some p1) ∧
    (∃ p2, regGet (incomingCall env0 (incomingCall env0 0 st0 "c1").counter
        (incomingCall env0 0 st0 "c1").state "c1").state.calls "c1" = some p2 ∧
      Event.resp (HResp.xml (Bxml.transferBxml p2.token "c1")) ∈
        (incomingCall env0 (incomingCall env0 0 st0 "c1").counter
          (incomingCall env0 0 st0 "c1").state "c1").trace) ∧
    countDeletes ((incomingCall env0 0 st0 "c1").trace ++
      (incomingCall env0 (incomingCall env0 0 st0 "c1").counter
        (incomingCall env0 0 st0 "c1").state "c1").trace) = 0 ∧
    ∀ k, Event.resp (HResp.status k) ∉ (incomingCall env0 0 st0 "c1").trace ++
      (incomingCall env0 (incomingCall env0 0 st0 "c1").counter
        (incomingCall env0 0 st0 "c1").state "c1").trace :=
  duplicate_inbound_overwrites env0 0 st0 "c1" (by rfl) (by rfl)

/-- C4: when a session id is cached and the vendor's existence check for
it fails — with any error, or a response carrying no id — the next
participant provisioning issues exactly one session-creation request,
overwrites the cache with the new session's id, and registers the
participant into that new session. -/
theorem invalid_session_creates_new (env : Env) (n : Nat) (st : St)
    (tag s pid token nid : String)
    (hc : st.sessionId = some s)
    (hcp : env.createParticipantResp n = Except.ok (some pid, some token))
    (hgs : ∀ i, env.getSessionResp (n + 1) s ≠ Except.ok (some i))
    (hcs : env.createSessionResp (n + 2) = Except.ok (some nid)) :
    countCreateSessions (createParticipant env n st tag).trace = 1 ∧
    (createParticipant env n st tag).state.sessionId = some nid ∧
    Event.vreq (VReq.addParticipantToSession nid pid) ∈
      (createParticipant env n st tag).trace := by
  have hcs2 : env.createSessionResp (n + 1 + 1) = Except.ok (some nid) := hcs
  have hGS : getSessionId env (n + 1) st =
      ⟨Except.ok nid, n + 1 + 1 + 1, { st with sessionId := some nid },
        [Event.vreq (VReq.getSession s), Event.vreq VReq.createSession]⟩ := by
    cases hr : env.getSessionResp (n + 1) s with
    | error e => simp [getSessionId, hc, hr, createNewSession, hcs2]
    | ok oi =>
      cases oi with
      | none => simp [getSessionId, hc, hr, createNewSession, hcs2]
      | some i => exact absurd hr (hgs i)
  cases hap : env.addParticipantResp (n + 1 + 1 + 1) nid pid with
  | error e =>
    refine ⟨?_, ?_, ?_⟩ <;>
      simp [createParticipant, hcp, hGS, hap, countCreateSessions, isCreateSessionReq]
  | ok u =>
    refine ⟨?_, ?_, ?_⟩ <;>
      simp [createParticipant, hcp, hGS, hap, countCreateSessions, isCreateSessionReq]

theorem invalid_session_creates_new_witness :
    countCreateSessions (createParticipant envSessionCheckFail 0
      ⟨some "sOld", []⟩ "hello-world-ts-phone").trace = 1 ∧
    (createParticipant envSessionCheckFail 0
      ⟨some "sOld", []⟩ "hello-world-ts-phone").state.sessionId = some "s2" ∧
    Event.vreq (VReq.addParticipantToSession "s2" "p0") ∈
      (createParticipant envSessionCheckFail 0
        ⟨some "sOld", []⟩ "hello-world-ts-phone").trace :=
  invalid_session_creates_new envSessionCheckFail 0 ⟨some "sOld", []⟩
    "hello-world-ts-phone" "sOld" "p0" "t0" "s2" (by rfl) (by rfl)
    (fun i h => by simp [envSessionCheckFail] at h) (by rfl)

/-- C10: on `GET /callPhone` with an outbound number configured, a failed
vendor call-origination is caught: the handler still answers 204 (its
only response), the call-origination request was issued, and no entry is
inserted into the registry, so the freshly created participant is never
registered. -/
theorem callPhone_failure_caught (cfg : Config) (env : Env) (n : Nat)
    (st : St) (p : ParticipantInfo)
    (hnum : strTruthy cfg.outboundPhoneNumber = true)
    (hcp : (createParticipant env n st "hello-world-ts-phone").result =
      Except.ok p)
    (hcc : env.createCallResp
      (createParticipant env n st "hello-world-ts-phone").counter =
      Except.error ()) :
    (callPhoneHandler cfg env n st).result = Except.ok () ∧
    responses (callPhoneHandler cfg env n st).trace = [HResp.status 204] ∧
    (callPhoneHandler cfg env n st).state.calls = st.calls ∧
    Event.vreq (VReq.createCall cfg.voiceApplicationPhoneNumber
      cfg.outboundPhoneNumber) ∈ (callPhoneHandler cfg env n st).trace := by
  have hs := createParticipant_spec env n st "hello-world-ts-phone"
  have htr : (callPhoneHandler cfg env n st).trace =
      (createParticipant env n st "hello-world-ts-phone").trace ++
        [Event.vreq (VReq.createCall cfg.voiceApplicationPhoneNumber
          cfg.outboundPhoneNumber)] ++
        [Event.resp (HResp.status 204)] := by
    simp [callPhoneHandler, hnum, hcp, callPhone_trace]
  refine ⟨?_, ?_, ?_, ?_⟩
  · simp [callPhoneHandler, hnum, hcp, callPhone, hcc]
  · rw [htr, responses_append, responses_append, hs.2.1]
    simp [responses]
  · simp [callPhoneHandler, hnum, hcp, callPhone, hcc, hs.1]
  · rw [htr]
    simp

theorem callPhone_failure_caught_witness :
    (callPhoneHandler cfgOutbound envCallFail 0 st0).result = Except.ok () ∧
    responses (callPhoneHandler cfgOutbound envCallFail 0 st0).trace =
      [HResp.status 204] ∧
    (callPhoneHandler cfgOutbound envCallFail 0 st0).state.calls = st0.calls ∧
    Event.vreq (VReq.createCall cfgOutbound.voiceApplicationPhoneNumber
      cfgOutbound.outboundPhoneNumber) ∈
      (callPhoneHandler cfgOutbound envCallFail 0 st0).trace :=
  callPhone_failure_caught cfgOutbound envCallFail 0 st0 ⟨"p0", "t0"⟩
    (by decide) (by rfl) (by rfl)

/-- C1 counterexample: with no outbound number configured and a vendor
that accepts every request, `GET /callPhone` does send 400 first — but,
contrary to the claim, it then creates a participant, issues a vendor
call-origination request (with the unset destination number), and inserts
an entry into the registry. -/
theorem callPhone_no_number_counterexample :
    strTruthy cfgNoOutbound.outboundPhoneNumber = false ∧
    clientResponse (callPhoneHandler cfgNoOutbound env0 0 st0).trace =
      some (HResp.status 400) ∧
    Event.vreq (VReq.createParticipant "hello-world-ts-phone") ∈
      (callPhoneHandler cfgNoOutbound env0 0 st0).trace ∧
    Event.vreq (VReq.createCall cfgNoOutbound.voiceApplicationPhoneNumber
      none) ∈ (callPhoneHandler cfgNoOutbound env0 0 st0).trace ∧
    (callPhoneHandler cfgNoOutbound env0 0 st0).state.calls ≠ st0.calls := by
  decide

/-- C1 amended: when no outbound number is configured, `GET /callPhone`
answers 400 (the first response sent) but does not stop: it always issues
a participant-creation request; whenever the handler completes without an
exception it has also issued a call-origination request with the unset
destination number and attempted a final 204 send; and if the vendor
accepted that origination, an entry for the returned call id was inserted
into the registry (holding the freshly created participant). -/
theorem callPhone_no_number_amended (cfg : Config) (env : Env) (n : Nat)
    (st : St) (hnum : strTruthy cfg.outboundPhoneNumber = false) :
    clientResponse (callPhoneHandler cfg env n st).trace =
      some (HResp.status 400) ∧
    Event.vreq (VReq.createParticipant "hello-world-ts-phone") ∈
      (callPhoneHandler cfg env n st).trace ∧
    ((callPhoneHandler cfg env n st).result = Except.ok () →
      Event.vreq (VReq.createCall cfg.voiceApplicationPhoneNumber
        cfg.outboundPhoneNumber) ∈ (callPhoneHandler cfg env n st).trace ∧
      Event.resp (HResp.status 204) ∈ (callPhoneHandler cfg env n st).trace) ∧
    (∀ callId, (callPhoneHandler cfg env n st).result = Except.ok () →
      env.createCallResp
        (createParticipant env n st "hello-world-ts-phone").counter =
        Except.ok callId →
      ∃ p, (createParticipant env n st "hello-world-ts-phone").result =
          Except.ok p ∧
        regGet (callPhoneHandler cfg env n st).state.calls callId = some p) := by
  have hs := createParticipant_spec env n st "hello-world-ts-phone"
  cases hres : (createParticipant env n st "hello-world-ts-phone").result with
  | error e =>
    refine ⟨?_, ?_, ?_, ?_⟩
    · simp [callPhoneHandler, hnum, hres, clientResponse, responses_append,
        responses]
    · simp only [callPhoneHandler, hnum, hres]
      simp [hs.2.2.2.1]
    · intro hok
      simp only [callPhoneHandler, hnum, hres] at hok
      simp at hok
    · intro callId hok hcc
      simp only [callPhoneHandler, hnum, hres] at hok
      simp at hok
  | ok participant =>
    refine ⟨?_, ?_, ?_, ?_⟩
    · simp [callPhoneHandler, hnum, hres, clientResponse, responses_append,
        responses]
    · simp only [callPhoneHandler, hnum, hres]
      simp [hs.2.2.2.1]
    · intro hok
      constructor
      · simp only [callPhoneHandler, hnum, hres, callPhone_trace]
        simp
      · simp only [callPhoneHandler, hnum, hres]
        simp
    · intro callId hok hcc
      refine ⟨participant, rfl, ?_⟩
      have hcalls : (callPhoneHandler cfg env n st).state.calls =
          regSet st.calls callId participant := by
        simp only [callPhoneHandler, hres, callPhone, hcc]
        rw [hs.1]
      rw [hcalls]
      exact regGet_regSet_self st.calls callId participant

theorem callPhone_no_number_amended_witness :
    clientResponse (callPhoneHandler cfgNoOutbound env0 0 st0).trace =
      some (HResp.status 400) ∧
    Event.vreq (VReq.createParticipant "hello-world-ts-phone") ∈
      (callPhoneHandler cfgNoOutbound env0 0 st0).trace ∧
    Event.vreq (VReq.createCall cfgNoOutbound.voiceApplicationPhoneNumber
      cfgNoOutbound.outboundPhoneNumber) ∈
      (callPhoneHandler cfgNoOutbound env0 0 st0).trace ∧
    Event.resp (HResp.status 204) ∈
      (callPhoneHandler cfgNoOutbound env0 0 st0).trace ∧
    ∃ p, (createParticipant env0 0 st0 "hello-world-ts-phone").result =
        Except.ok p ∧
      regGet (callPhoneHandler cfgNoOutbound env0 0 st0).state.calls "c3" =
        some p := by
  have h := callPhone_no_number_amended cfgNoOutbound env0 0 st0 (by decide)
  exact ⟨h.1, h.2.1, (h.2.2.1 (by rfl)).1, (h.2.2.1 (by rfl)).2,
    h.2.2.2 "c3" (by rfl) (by rfl)⟩

end HelloWorld
